import Mathlib

/-!
Verification of the analysis-pipeline contract of the Pravaah dashboard.

The embedding models the "Complete Analysis Pipeline" of
`src/views/government.py` (`show_government_dashboard`, lines 88-217):
six analytic stages run sequentially, each inside its own try/except;
a stage failure is replaced by the fallback value built in the matching
`except` branch.  The six model collaborators
(`models.yolo.infer.predict_image_with_viz`, `models.raman.infer.predict_polymer`,
`models.wqi.predict.predict_wqi`, `models.forecast.forecast.forecast_wqi`,
`models.pinn.predict_do.predict_dissolved_oxygen`,
`models.digital_twin.simulate.run_digital_twin_simulation`) are external
imports with no implementation in the repository, so they are modelled as
`Except String`-valued parameters of the orchestrator.  The calls to
`np.random.randn` / `np.random.rand` in the fallback branches, and the call
to `np.sin` in the PINN fallback, are modelled as streams / a function
supplied in an `Env` record: the pipeline is a deterministic function of the
submission, the collaborators and that environment.

Machine floats are modelled as rationals.
-/

namespace Pravaah

/-- An uploaded image, kept abstract as a byte list. -/
abbrev Image := List Nat

/-- The measured water-quality inputs of the government pipeline form
(`government.py` lines 70-85). -/
structure WaterParams where
  temperature : ℚ
  ph : ℚ
  turbidity : ℚ
  dissolved_oxygen : ℚ
  conductivity : ℚ
  bod : ℚ
  cod : ℚ
  tds : ℚ
  nitrate : ℚ
  phosphate : ℚ
  chloride : ℚ
  fecal_coliform : ℕ
deriving DecidableEq

/-- A sample submission: optional uploaded image plus measured parameters
(the pipeline only runs when an image was uploaded,
`government.py` lines 88-89 and 438-439). -/
structure SampleSubmission where
  image : Option Image
  params : WaterParams

/-- The 16-key feature dictionary `wqi_features` built at
`government.py` lines 128-145. -/
structure WqiFeatures where
  temperature : ℚ
  ph : ℚ
  dissolved_oxygen : ℚ
  conductivity : ℚ
  turbidity : ℚ
  tds : ℚ
  bod : ℚ
  cod : ℚ
  nitrate : ℚ
  phosphate : ℚ
  fecal_coliform : ℚ
  total_coliform : ℚ
  chloride : ℚ
  fluoride : ℚ
  hardness : ℚ
  alkalinity : ℚ
deriving DecidableEq

/-- Build `wqi_features` from the form inputs exactly as
`government.py` lines 128-145: `total_coliform = fecal_coliform * 8`,
`fluoride = 0.8`, `hardness = 180`, `alkalinity = 120`. -/
def mkWqiFeatures (p : WaterParams) : WqiFeatures :=
  { temperature := p.temperature
    ph := p.ph
    dissolved_oxygen := p.dissolved_oxygen
    conductivity := p.conductivity
    turbidity := p.turbidity
    tds := p.tds
    bod := p.bod
    cod := p.cod
    nitrate := p.nitrate
    phosphate := p.phosphate
    fecal_coliform := (p.fecal_coliform : ℚ)
    total_coliform := (p.fecal_coliform : ℚ) * 8
    chloride := p.chloride
    fluoride := 4/5
    hardness := 180
    alkalinity := 120 }

/-- Result of stage 1 (YOLO detection): the `yolo_result` dict fields used
by the pipeline (`count`, `particle_types`). -/
structure DetectionResult where
  count : ℕ
  particle_types : List (String × ℕ)
deriving DecidableEq

/-- Result of stage 2 (Raman classification): the `raman_result` dict
fields used by the pipeline (`polymer`, `confidence`). -/
structure MaterialResult where
  polymer : String
  confidence : ℚ
deriving DecidableEq

/-- Result of stage 3 (WQI prediction): the `wqi_result` dict fields used
by the pipeline (`wqi_score`, `classification`). -/
structure IndexResult where
  wqi_score : ℚ
  classification : String
deriving DecidableEq

/-- Result of stage 4 (forecast): the `forecast_df` rows, a date (as an
integer day stamp) paired with `Predicted_WQI`. -/
structure ForecastResult where
  rows : List (ℤ × ℚ)
deriving DecidableEq

/-- Result of stage 5 (PINN dissolved-oxygen prediction): the `pinn_result`
dict fields used by the pipeline (`time_hours`, `do_predictions`, `mean_do`,
`critical_hours`). -/
structure PhysicsResult where
  time_hours : List ℚ
  do_predictions : List ℚ
  mean_do : ℚ
  critical_hours : List ℚ
deriving DecidableEq

/-- Result of stage 6 (digital-twin simulation): the `twin_result` dict
fields used by the pipeline (`days`, `wqi_trajectory`, `final_wqi`). -/
structure SimulationResult where
  days : List ℕ
  wqi_trajectory : List ℚ
  final_wqi : ℚ
deriving DecidableEq

/-- The `twin_params` dict built at `government.py` lines 197-202. -/
structure TwinParams where
  pollution_load : ℚ
  cleanup_frequency : ℚ
  regulation_strictness : ℚ
  initial_wqi : ℚ
deriving DecidableEq

/-- A stage outcome in the report: either the collaborator's real value, or
a fallback value tagged with the exception message recorded in the `error`
key of the fallback dict. -/
inductive StageResult (α : Type) where
  | ok : α → StageResult α
  | degraded : α → String → StageResult α
deriving DecidableEq

/-- The usable value of a stage result; downstream stages read it through
the same dict key whether or not the stage degraded. -/
def StageResult.value {α : Type} : StageResult α → α
  | .ok v => v
  | .degraded v _ => v

/-- Whether the stage fell back to synthetic data (the fallback dict carries
an `error` key; a real result does not). -/
def StageResult.isDegraded {α : Type} : StageResult α → Bool
  | .ok _ => false
  | .degraded _ _ => true

/-- The aggregated report assembled by one pipeline run: one stage result
per stage, in pipeline order. -/
structure Report where
  detection : StageResult DetectionResult
  material : StageResult MaterialResult
  index : StageResult IndexResult
  forecast : StageResult ForecastResult
  physics : StageResult PhysicsResult
  simulation : StageResult SimulationResult

/-- The per-stage degradation tags of a report, in pipeline order. -/
def Report.tags (r : Report) : List Bool :=
  [r.detection.isDegraded, r.material.isDegraded, r.index.isDegraded,
   r.forecast.isDegraded, r.physics.isDegraded, r.simulation.isDegraded]

/-- The six external model collaborators, one per stage, each of which may
throw (modelled by `Except.error` carrying the exception message). -/
structure Collaborators where
  detect : Image → ℚ → String → Except String DetectionResult
  classify : (Nat → ℚ) → Except String MaterialResult
  score : WqiFeatures → Except String IndexResult
  forecast : ℚ → Except String ForecastResult
  predictPhysics : WqiFeatures → ℕ → Except String PhysicsResult
  simulate : TwinParams → ℕ → Except String SimulationResult

/-- The ambient non-determinism consumed by the pipeline run: the current
date (`datetime.now()` as an integer day stamp), the simulated Raman
spectrum `np.random.rand(1024)`, the `np.random.randn` streams of the
forecast and twin fallbacks, and the `np.sin` function of the PINN fallback
kept abstract (its pointwise values never matter to the verified claims). -/
structure Env where
  now : ℤ
  ramanSpectrum : Nat → ℚ
  forecastNoise : Nat → ℚ
  twinNoise : Nat → ℚ
  sinFn : ℚ → ℚ

/-- Run one stage under the per-stage try/except: a collaborator exception
is caught and replaced by the fallback built from the exception message. -/
def catchStage {α : Type} (x : Except String α) (fb : String → α) : StageResult α :=
  match x with
  | .ok v => .ok v
  | .error e => .degraded (fb e) e

/-- Stage-1 fallback (`government.py` line 106):
`{'count': 0, 'particle_types': {}, 'error': str(e)}`. -/
def detectionFallback : DetectionResult := ⟨0, []⟩

/-- Stage-2 fallback (`government.py` line 120):
`{'polymer': 'PE', 'confidence': 0.85, 'error': str(e)}`. -/
def ramanFallback : MaterialResult := ⟨"PE", 17/20⟩

/-- Stage-3 fallback (`government.py` line 150):
`{'wqi_score': 52.3, 'classification': 'Moderate', 'error': str(e)}`. -/
def wqiFallback : IndexResult := ⟨523/10, "Moderate"⟩

/-- One value of the stage-4 fallback path (`government.py` line 164):
`wqi_result['wqi_score'] + np.random.randn(60) * 5`, pointwise. -/
def fallbackForecastValue (score : ℚ) (noise : Nat → ℚ) (i : ℕ) : ℚ :=
  score + noise i * 5

/-- Stage-4 fallback (`government.py` lines 163-168): 60 consecutive daily
dates starting at `datetime.now()` paired with the perturbed scores. -/
def fallbackForecast (now : ℤ) (score : ℚ) (noise : Nat → ℚ) : ForecastResult :=
  ⟨(List.range 60).map (fun (i : ℕ) => (now + (i : ℤ), fallbackForecastValue score noise i))⟩

/-- The 100-point time grid `np.linspace(0, 72, 100)` of the stage-5
fallback (`government.py` line 181). -/
def linspace72 : List ℚ :=
  (List.range 100).map (fun i => 72 * (i : ℚ) / 99)

/-- Stage-5 fallback (`government.py` lines 181-189):
`do_pred = dissolved_oxygen + np.sin(time_hours/12)*2 - time_hours/72*3`,
`mean_do = np.mean(do_pred)`, `critical_hours = time_hours[do_pred < 4.0]`. -/
def fallbackPhysics (doLevel : ℚ) (sinFn : ℚ → ℚ) : PhysicsResult :=
  let times := linspace72
  let preds := times.map (fun t => doLevel + sinFn (t / 12) * 2 - t / 72 * 3)
  { time_hours := times
    do_predictions := preds
    mean_do := preds.sum / 100
    critical_hours := ((times.zip preds).filter (fun tp => decide (tp.2 < 4))).map Prod.fst }

/-- One trajectory value of the stage-6 fallback (`government.py` line 209):
`wqi_score + np.cumsum(np.random.randn(30)) * 2`, pointwise. -/
def twinTrajValue (score : ℚ) (noise : Nat → ℚ) (i : ℕ) : ℚ :=
  score + ((List.range (i + 1)).map noise).sum * 2

/-- Stage-6 fallback (`government.py` lines 208-215): 30 days of a
cumulative random walk seeded at the stage-3 score; `final_wqi` is the last
trajectory entry. -/
def fallbackTwin (score : ℚ) (noise : Nat → ℚ) : SimulationResult :=
  { days := List.range 30
    wqi_trajectory := (List.range 30).map (twinTrajValue score noise)
    final_wqi := twinTrajValue score noise 29 }

/-- The complete pipeline of `government.py` lines 96-217, given an uploaded
image: six sequential stages, each wrapped in `catchStage`; stage 4 and 6
consume the stage-3 score, stage 6 consumes the stage-1 count
(`pollution_load = count * 10`), stage 5 reads the submitted
dissolved-oxygen level in its fallback. -/
def run (img : Image) (p : WaterParams) (c : Collaborators) (env : Env) : Report :=
  let det := catchStage (c.detect img (7/20) "Government") (fun _ => detectionFallback)
  let mat := catchStage (c.classify env.ramanSpectrum) (fun _ => ramanFallback)
  let features := mkWqiFeatures p
  let wqi := catchStage (c.score features) (fun _ => wqiFallback)
  let fc := catchStage (c.forecast wqi.value.wqi_score)
      (fun _ => fallbackForecast env.now wqi.value.wqi_score env.forecastNoise)
  let phy := catchStage (c.predictPhysics features 72)
      (fun _ => fallbackPhysics p.dissolved_oxygen env.sinFn)
  let twinParams : TwinParams :=
    { pollution_load := (det.value.count : ℚ) * 10
      cleanup_frequency := 1/5
      regulation_strictness := 7/10
      initial_wqi := wqi.value.wqi_score }
  let tw := catchStage (c.simulate twinParams 30)
      (fun _ => fallbackTwin wqi.value.wqi_score env.twinNoise)
  ⟨det, mat, wqi, fc, phy, tw⟩

/-- The guarded pipeline entry: the run only happens when an image was
uploaded (`government.py` lines 89 and 438-439 show a warning otherwise). -/
def runPipeline (sub : SampleSubmission) (c : Collaborators) (env : Env) : Option Report :=
  sub.image.map (fun img => run img sub.params c env)

/-- The particle-count risk level of the citizen dashboard
(`citizen.py` lines 253 and 360):
`'High' if particle_count > 100 else 'Moderate' if particle_count > 50 else 'Low'`. -/
def riskLevel (count : ℕ) : String :=
  if count > 100 then "High" else if count > 50 then "Moderate" else "Low"

/-- The WQI summary-card colour of the government dashboard
(`government.py` line 248):
`'#2ecc71' if wqi_score > 75 else '#f39c12' if wqi_score > 50 else '#e74c3c'`
(green / amber / red). -/
def wqiColor (score : ℚ) : String :=
  if score > 75 then "#2ecc71" else if score > 50 then "#f39c12" else "#e74c3c"

/-- The simulation-trend classification of `government.py` lines 379-384,
as a function of `improvement = final_wqi_twin - wqi_score`: a success
banner (improvement), an error banner (decline), or an info banner
(stable). -/
def simTrend (delta : ℚ) : String :=
  if delta > 5 then "improvement" else if delta < -5 then "decline" else "stable"

/-- The critical dissolved-oxygen alert of `government.py` lines 343-350:
an error banner is shown exactly when `len(critical_hours) > 0`. -/
def oxygenAlert (r : PhysicsResult) : Bool :=
  decide (0 < r.critical_hours.length)

/-- Substring test on character lists, used to model Python's `in` operator
on strings. -/
def listStartsWith : List Char → List Char → Bool
  | [], _ => true
  | _ :: _, [] => false
  | a :: as, b :: bs => a == b && listStartsWith as bs

/-- Whether `pat` occurs somewhere in `s`, used to model Python's
`"Public" in role` tests of `app.py` lines 191-215. -/
def strContains (s pat : String) : Bool :=
  go pat.data s.data
where
  go (pat : List Char) : List Char → Bool
    | [] => listStartsWith pat []
    | c :: rest => listStartsWith pat (c :: rest) || go pat rest

/-- The four selectable role labels of the sidebar radio
(`app.py` lines 184-188). -/
def publicRole : String := "👥 Public User"

/-- Government role label of the sidebar radio. -/
def governmentRole : String := "🏛️ Government Official"

/-- Researcher role label of the sidebar radio. -/
def researcherRole : String := "🔬 Researcher"

/-- Admin role label of the sidebar radio. -/
def adminRole : String := "⚙️ Admin Panel"

/-- The closed set of roles the radio widget can produce. -/
def roleOptions : List String := [publicRole, governmentRole, researcherRole, adminRole]

/-- The confidence threshold selected from the role string
(`app.py` lines 190-216): `0.50` when the role contains `"Public"`, else
`0.35` when it contains `"Government"`, else `0.10` when it contains
`"Researcher"`, else (Admin) `0.10`. -/
def confidenceForRole (role : String) : ℚ :=
  if strContains role "Public" then 1/2
  else if strContains role "Government" then 7/20
  else if strContains role "Researcher" then 1/10
  else 1/10

/-- The forecast-sequence contract of a `ForecastResult` (spec section 3):
exactly 60 rows with strictly increasing dates.  The fallback produced in
`government.py` lines 163-168 satisfies it by construction; the external
`forecast_wqi` model is not in the repository, so its outputs are
constrained by this predicate, modelled from the spec. -/
def ForecastResult.wf (r : ForecastResult) : Prop :=
  r.rows.length = 60 ∧ (r.rows.map Prod.fst).Pairwise (· < ·)

/-- The critical-hours contract of a `PhysicsResult`: `critical_hours` is
the list of time points whose predicted oxygen value is strictly below 4.0,
exactly as built by `time_hours[do_pred < 4.0]` in `government.py`
line 187.  The external `predict_dissolved_oxygen` model is not in the
repository, so its outputs are constrained by this predicate, modelled from
the spec. -/
def PhysicsResult.wf (r : PhysicsResult) : Prop :=
  r.time_hours.length = r.do_predictions.length ∧
  r.critical_hours =
    ((r.time_hours.zip r.do_predictions).filter (fun tp => decide (tp.2 < 4))).map Prod.fst

/-- A collaborator set in which every stage call throws. -/
def AlwaysFails (c : Collaborators) : Prop :=
  (∀ img th role, ∃ e, c.detect img th role = .error e) ∧
  (∀ s, ∃ e, c.classify s = .error e) ∧
  (∀ f, ∃ e, c.score f = .error e) ∧
  (∀ q, ∃ e, c.forecast q = .error e) ∧
  (∀ f h, ∃ e, c.predictPhysics f h = .error e) ∧
  (∀ tp h, ∃ e, c.simulate tp h = .error e)

/-- The simulation trend shown by the report, a function of the final
simulated score and the stage-3 score only
(`government.py` lines 376-384). -/
def reportTrend (r : Report) : String :=
  simTrend (r.simulation.value.final_wqi - r.index.value.wqi_score)

/-- A stage result always carries a usable value: the real one or the
tagged fallback. -/
def StageResult.hasValue {α : Type} (s : StageResult α) : Prop :=
  ∃ v : α, s = .ok v ∨ ∃ e, s = .degraded v e

/-- A report is complete when every one of its six stages holds a value. -/
def Report.complete (r : Report) : Prop :=
  r.detection.hasValue ∧ r.material.hasValue ∧ r.index.hasValue ∧
  r.forecast.hasValue ∧ r.physics.hasValue ∧ r.simulation.hasValue

/-- The default form values of the government pipeline
(`government.py` lines 70-85): temperature 25.0, pH 7.0, turbidity 25.0,
dissolved oxygen 7.5, conductivity 450, BOD 10, COD 35, TDS 300,
nitrate 8.5, phosphate 2.1, chloride 85, fecal coliform 150. -/
def sampleParams : WaterParams :=
  ⟨25, 7, 25, 15/2, 450, 10, 35, 300, 17/2, 21/10, 85, 150⟩

/-- A collaborator set in which every model import throws, the situation of
a deployment with no model files present. -/
def failingCollaborators : Collaborators :=
  { detect := fun _ _ _ => .error "model unavailable"
    classify := fun _ => .error "model unavailable"
    score := fun _ => .error "model unavailable"
    forecast := fun _ => .error "model unavailable"
    predictPhysics := fun _ _ => .error "model unavailable"
    simulate := fun _ _ => .error "model unavailable" }

/-- A concrete environment: day stamp 0, all random draws 0, sine stand-in
constantly 0. -/
def zeroEnv : Env := ⟨0, fun _ => 0, fun _ => 0, fun _ => 0, fun _ => 0⟩

/-- A second concrete environment with different random draws. -/
def oneEnv : Env := ⟨3, fun _ => 1, fun _ => 1, fun _ => 1, fun _ => 0⟩

/-- C3: the particle-count risk level is a pure function of the detected
particle count: strictly above 100 maps to "High", 51-100 to "Moderate",
and at most 50 to "Low". -/
theorem riskLevel_pure_thresholds (n : ℕ) :
    (100 < n → riskLevel n = "High") ∧
    (50 < n → n ≤ 100 → riskLevel n = "Moderate") ∧
    (n ≤ 50 → riskLevel n = "Low") := by
  unfold riskLevel
  refine ⟨fun h => ?_, fun h1 h2 => ?_, fun h => ?_⟩
  · rw [if_pos h]
  · rw [if_neg (by omega), if_pos h1]
  · rw [if_neg (by omega), if_neg (by omega)]

/-- Witness for C3 at the inputs named by the claim: 150 maps to "High",
75 to "Moderate", 20 to "Low". -/
theorem riskLevel_pure_thresholds_witness :
    riskLevel 150 = "High" ∧ riskLevel 75 = "Moderate" ∧ riskLevel 20 = "Low" :=
  ⟨(riskLevel_pure_thresholds 150).1 (by norm_num),
   (riskLevel_pure_thresholds 75).2.1 (by norm_num) (by norm_num),
   (riskLevel_pure_thresholds 20).2.2 (by norm_num)⟩

/-- C4: the index-score band is a pure function of the WQI score: strictly
above 75 is good (green, `#2ecc71`), strictly above 50 and at most 75 is
moderate (amber, `#f39c12`), and at most 50 is poor (red, `#e74c3c`). -/
theorem wqiColor_pure_thresholds (s : ℚ) :
    (75 < s → wqiColor s = "#2ecc71") ∧
    (50 < s → s ≤ 75 → wqiColor s = "#f39c12") ∧
    (s ≤ 50 → wqiColor s = "#e74c3c") := by
  unfold wqiColor
  refine ⟨fun h => ?_, fun h1 h2 => ?_, fun h => ?_⟩
  · rw [if_pos h]
  · rw [if_neg (by linarith), if_pos h1]
  · rw [if_neg (by linarith), if_neg (by linarith)]

/-- Witness for C4 at scores 80, 60 and 40. -/
theorem wqiColor_pure_thresholds_witness :
    wqiColor 80 = "#2ecc71" ∧ wqiColor 60 = "#f39c12" ∧ wqiColor 40 = "#e74c3c" :=
  ⟨(wqiColor_pure_thresholds 80).1 (by norm_num),
   (wqiColor_pure_thresholds 60).2.1 (by norm_num) (by norm_num),
   (wqiColor_pure_thresholds 40).2.2 (by norm_num)⟩

/-- C6: the simulation-trend classification is a pure function of the final
simulated score minus the stage-3 score: a difference strictly above 5 is
reported as improvement, strictly below -5 as decline, and anything in
between as stable. -/
theorem reportTrend_thresholds (r : Report) :
    (5 < r.simulation.value.final_wqi - r.index.value.wqi_score →
      reportTrend r = "improvement") ∧
    (r.simulation.value.final_wqi - r.index.value.wqi_score < -5 →
      reportTrend r = "decline") ∧
    (-5 ≤ r.simulation.value.final_wqi - r.index.value.wqi_score →
      r.simulation.value.final_wqi - r.index.value.wqi_score ≤ 5 →
      reportTrend r = "stable") := by
  unfold reportTrend simTrend
  refine ⟨fun h => ?_, fun h => ?_, fun h1 h2 => ?_⟩
  · rw [if_pos h]
  · rw [if_neg (by linarith), if_pos h]
  · rw [if_neg (by linarith), if_neg (by linarith)]

/-- Witness for C6: a report whose simulated score rose from 50 to 60 is
classified as an improvement. -/
theorem reportTrend_thresholds_witness :
    reportTrend ⟨.ok ⟨5, []⟩, .ok ⟨"PE", 1⟩, .ok ⟨50, "Moderate"⟩,
      .ok ⟨[]⟩, .ok ⟨[], [], 0, []⟩, .ok ⟨[], [], 60⟩⟩ = "improvement" :=
  (reportTrend_thresholds _).1 (by norm_num [StageResult.value])

/-- C10: over the four selectable roles, the confidence threshold is a pure
function of the role label: a label containing "Public" yields 0.50, one
containing "Government" yields 0.35, and the Researcher and Admin labels
both yield 0.10. -/
theorem confidence_role_thresholds (r : String) (hr : r ∈ roleOptions) :
    (strContains r "Public" = true → confidenceForRole r = 1/2) ∧
    (strContains r "Government" = true → confidenceForRole r = 7/20) ∧
    ((r = researcherRole ∨ r = adminRole) → confidenceForRole r = 1/10) := by
  fin_cases hr
  · exact ⟨fun _ => by unfold confidenceForRole; rw [if_pos (by decide)],
      fun h => absurd h (by decide), fun h => absurd h (by decide)⟩
  · exact ⟨fun h => absurd h (by decide),
      fun _ => by unfold confidenceForRole; rw [if_neg (by decide), if_pos (by decide)],
      fun h => absurd h (by decide)⟩
  · exact ⟨fun h => absurd h (by decide), fun h => absurd h (by decide),
      fun _ => by
        unfold confidenceForRole
        rw [if_neg (by decide), if_neg (by decide), if_pos (by decide)]⟩
  · exact ⟨fun h => absurd h (by decide), fun h => absurd h (by decide),
      fun _ => by
        unfold confidenceForRole
        rw [if_neg (by decide), if_neg (by decide), if_neg (by decide)]⟩

/-- Witness for C10 at each of the four role labels. -/
theorem confidence_role_thresholds_witness :
    confidenceForRole publicRole = 1/2 ∧ confidenceForRole governmentRole = 7/20 ∧
    confidenceForRole researcherRole = 1/10 ∧ confidenceForRole adminRole = 1/10 :=
  ⟨(confidence_role_thresholds publicRole (by decide)).1 (by decide),
   (confidence_role_thresholds governmentRole (by decide)).2.1 (by decide),
   (confidence_role_thresholds researcherRole (by decide)).2.2 (Or.inl rfl),
   (confidence_role_thresholds adminRole (by decide)).2.2 (Or.inr rfl)⟩

/-- Every stage result holds a value, by case analysis on the tag. -/
theorem stageResult_hasValue {α : Type} (s : StageResult α) : s.hasValue := by
  cases s with
  | ok v => exact ⟨v, Or.inl rfl⟩
  | degraded v e => exact ⟨v, Or.inr ⟨e, rfl⟩⟩

/-- C1: for every submission with an uploaded image, the pipeline run
terminates normally with a report — stage exceptions are all caught inside
`run` — and the report carries exactly six stage results, each holding a
value (real or fallback). -/
theorem pipeline_always_completes (sub : SampleSubmission) (c : Collaborators)
    (env : Env) (img : Image) (h : sub.image = some img) :
    runPipeline sub c env = some (run img sub.params c env) ∧
    (run img sub.params c env).tags.length = 6 ∧
    (run img sub.params c env).complete := by
  refine ⟨by simp [runPipeline, h], rfl, ?_⟩
  exact ⟨stageResult_hasValue _, stageResult_hasValue _, stageResult_hasValue _,
    stageResult_hasValue _, stageResult_hasValue _, stageResult_hasValue _⟩

/-- Witness for C1: a concrete submission with an image, run against
collaborators that all throw, still yields a complete six-stage report. -/
theorem pipeline_always_completes_witness :
    runPipeline ⟨some [0], sampleParams⟩ failingCollaborators zeroEnv =
      some (run [0] sampleParams failingCollaborators zeroEnv) ∧
    (run [0] sampleParams failingCollaborators zeroEnv).tags.length = 6 ∧
    (run [0] sampleParams failingCollaborators zeroEnv).complete :=
  pipeline_always_completes ⟨some [0], sampleParams⟩ failingCollaborators zeroEnv [0] rfl

/-- C2: if the detector throws, the detection stage degrades to count 0
with an empty particle-type map and the exception message as its recorded
reason, while the five later stages still run exactly their normal
catch-or-fallback step (stage 6 seeing pollution load built from the
fallback count). -/
theorem detector_failure_isolated (img : Image) (p : WaterParams) (c : Collaborators)
    (env : Env) (e : String) (h : c.detect img (7/20) "Government" = .error e) :
    (run img p c env).detection = .degraded detectionFallback e ∧
    (run img p c env).material =
      catchStage (c.classify env.ramanSpectrum) (fun _ => ramanFallback) ∧
    (run img p c env).index =
      catchStage (c.score (mkWqiFeatures p)) (fun _ => wqiFallback) ∧
    (run img p c env).forecast =
      catchStage (c.forecast ((run img p c env).index.value.wqi_score))
        (fun _ => fallbackForecast env.now ((run img p c env).index.value.wqi_score)
          env.forecastNoise) ∧
    (run img p c env).physics =
      catchStage (c.predictPhysics (mkWqiFeatures p) 72)
        (fun _ => fallbackPhysics p.dissolved_oxygen env.sinFn) ∧
    (run img p c env).simulation =
      catchStage (c.simulate
          ⟨(detectionFallback.count : ℚ) * 10, 1/5, 7/10,
            (run img p c env).index.value.wqi_score⟩ 30)
        (fun _ => fallbackTwin ((run img p c env).index.value.wqi_score) env.twinNoise) := by
  simp only [run]
  rw [h]
  simp [catchStage, StageResult.value]

/-- Witness for C2 at a concrete image, default form values and a detector
that throws. -/
theorem detector_failure_isolated_witness :
    (run [0] sampleParams failingCollaborators zeroEnv).detection =
      .degraded detectionFallback "model unavailable" ∧
    (run [0] sampleParams failingCollaborators zeroEnv).material =
      catchStage (failingCollaborators.classify zeroEnv.ramanSpectrum)
        (fun _ => ramanFallback) ∧
    (run [0] sampleParams failingCollaborators zeroEnv).index =
      catchStage (failingCollaborators.score (mkWqiFeatures sampleParams))
        (fun _ => wqiFallback) ∧
    (run [0] sampleParams failingCollaborators zeroEnv).forecast =
      catchStage (failingCollaborators.forecast
          ((run [0] sampleParams failingCollaborators zeroEnv).index.value.wqi_score))
        (fun _ => fallbackForecast zeroEnv.now
          ((run [0] sampleParams failingCollaborators zeroEnv).index.value.wqi_score)
          zeroEnv.forecastNoise) ∧
    (run [0] sampleParams failingCollaborators zeroEnv).physics =
      catchStage (failingCollaborators.predictPhysics (mkWqiFeatures sampleParams) 72)
        (fun _ => fallbackPhysics sampleParams.dissolved_oxygen zeroEnv.sinFn) ∧
    (run [0] sampleParams failingCollaborators zeroEnv).simulation =
      catchStage (failingCollaborators.simulate
          ⟨(detectionFallback.count : ℚ) * 10, 1/5, 7/10,
            (run [0] sampleParams failingCollaborators zeroEnv).index.value.wqi_score⟩ 30)
        (fun _ => fallbackTwin
          ((run [0] sampleParams failingCollaborators zeroEnv).index.value.wqi_score)
          zeroEnv.twinNoise) :=
  detector_failure_isolated [0] sampleParams failingCollaborators zeroEnv
    "model unavailable" rfl

/-- A caught stage is degraded exactly when its collaborator threw. -/
theorem catchStage_isDegraded_iff {α : Type} (x : Except String α) (fb : String → α) :
    (catchStage x fb).isDegraded = true ↔ ∃ e, x = .error e := by
  cases x <;> simp [catchStage, StageResult.isDegraded]

/-- C9: with a collaborator set that always fails, two runs of the pipeline
on the same submission under different random environments produce the same
degradation tags — all six stages degraded in both runs. -/
theorem degraded_tags_identical (img : Image) (p : WaterParams) (c : Collaborators)
    (env1 env2 : Env) (hc : AlwaysFails c) :
    (run img p c env1).tags = (run img p c env2).tags ∧
    (run img p c env1).tags = [true, true, true, true, true, true] := by
  obtain ⟨h1, h2, h3, h4, h5, h6⟩ := hc
  have key : ∀ env : Env, (run img p c env).tags = [true, true, true, true, true, true] := by
    intro env
    simp only [run, Report.tags, List.cons.injEq, and_true]
    simp only [catchStage_isDegraded_iff]
    exact ⟨h1 _ _ _, h2 _, h3 _, h4 _, h5 _ _, h6 _ _⟩
  exact ⟨(key env1).trans (key env2).symm, key env1⟩

/-- Witness for C9: two concrete runs with different random draws, both
against always-throwing collaborators. -/
theorem degraded_tags_identical_witness :
    (run [0] sampleParams failingCollaborators zeroEnv).tags =
      (run [0] sampleParams failingCollaborators oneEnv).tags ∧
    (run [0] sampleParams failingCollaborators zeroEnv).tags =
      [true, true, true, true, true, true] :=
  degraded_tags_identical [0] sampleParams failingCollaborators zeroEnv oneEnv
    ⟨fun _ _ _ => ⟨"model unavailable", rfl⟩, fun _ => ⟨"model unavailable", rfl⟩,
     fun _ => ⟨"model unavailable", rfl⟩, fun _ => ⟨"model unavailable", rfl⟩,
     fun _ _ => ⟨"model unavailable", rfl⟩, fun _ _ => ⟨"model unavailable", rfl⟩⟩

/-- Filtering a zipped list on its second components, the length of the
selection equals the length of filtering the second list alone. -/
theorem length_filter_zip_snd {α β : Type} (p : β → Bool) (as : List α) (bs : List β)
    (h : as.length = bs.length) :
    ((as.zip bs).filter (fun tp => p tp.2)).length = (bs.filter p).length := by
  induction as generalizing bs with
  | nil =>
    cases bs with
    | nil => rfl
    | cons b bs => simp at h
  | cons a as ih =>
    cases bs with
    | nil => simp at h
    | cons b bs =>
      have h2 : as.length = bs.length := by simpa using h
      simp only [List.zip_cons_cons, List.filter_cons]
      cases hp : p b <;> simp [hp, ih bs h2]

/-- The PINN fallback satisfies the critical-hours contract by
construction. -/
theorem fallbackPhysics_wf (d : ℚ) (s : ℚ → ℚ) : (fallbackPhysics d s).wf := by
  constructor
  · simp [fallbackPhysics]
  · rfl

/-- From the critical-hours contract: the critical count is the number of
predictions strictly below 4.0, and the alert banner fires exactly when
some prediction is strictly below 4.0. -/
theorem physicsResult_count_alert (r : PhysicsResult) (h : r.wf) :
    r.critical_hours.length = (r.do_predictions.filter (fun x => decide (x < 4))).length ∧
    (oxygenAlert r = true ↔ ∃ x ∈ r.do_predictions, x < 4) := by
  obtain ⟨hlen, hcrit⟩ := h
  have hl : r.critical_hours.length =
      (r.do_predictions.filter (fun x => decide (x < 4))).length := by
    rw [hcrit, List.length_map]
    exact length_filter_zip_snd (fun x => decide (x < 4)) r.time_hours r.do_predictions hlen
  refine ⟨hl, ?_⟩
  simp only [oxygenAlert, decide_eq_true_eq, hl, ← List.countP_eq_length_filter,
    List.countP_pos_iff]

/-- C5: the oxygen critical-point count reported by the pipeline equals the
number of physics predictions strictly below 4.0, and a critical alert is
raised exactly when some prediction is strictly below 4.0; the external
PINN model's outputs are assumed to satisfy the critical-hours contract
(`PhysicsResult.wf`), which the in-repository fallback satisfies by
construction. -/
theorem oxygen_critical_count (img : Image) (p : WaterParams) (c : Collaborators)
    (env : Env) (hc : ∀ f h r, c.predictPhysics f h = .ok r → r.wf) :
    ((run img p c env).physics.value).critical_hours.length =
      (((run img p c env).physics.value).do_predictions.filter
        (fun x => decide (x < 4))).length ∧
    (oxygenAlert ((run img p c env).physics.value) = true ↔
      ∃ x ∈ ((run img p c env).physics.value).do_predictions, x < 4) := by
  have hwf : ((run img p c env).physics.value).wf := by
    have hrun : (run img p c env).physics =
        catchStage (c.predictPhysics (mkWqiFeatures p) 72)
          (fun _ => fallbackPhysics p.dissolved_oxygen env.sinFn) := rfl
    rw [hrun]
    cases hx : c.predictPhysics (mkWqiFeatures p) 72 with
    | ok v => simpa [catchStage, StageResult.value] using hc _ _ v hx
    | error e =>
        simpa [catchStage, StageResult.value] using
          fallbackPhysics_wf p.dissolved_oxygen env.sinFn
  exact physicsResult_count_alert _ hwf

/-- Witness for C5: concrete run in which the PINN collaborator throws, so
the contract hypothesis holds vacuously and the fallback is exercised. -/
theorem oxygen_critical_count_witness :
    ((run [0] sampleParams failingCollaborators zeroEnv).physics.value).critical_hours.length =
      (((run [0] sampleParams failingCollaborators zeroEnv).physics.value).do_predictions.filter
        (fun x => decide (x < 4))).length ∧
    (oxygenAlert ((run [0] sampleParams failingCollaborators zeroEnv).physics.value) = true ↔
      ∃ x ∈ ((run [0] sampleParams failingCollaborators
        zeroEnv).physics.value).do_predictions, x < 4) :=
  oxygen_critical_count [0] sampleParams failingCollaborators zeroEnv
    (fun _ _ _ hr => Except.noConfusion hr)

/-- The forecast fallback satisfies the sequence contract by construction:
60 rows on consecutive daily dates from the current date. -/
theorem fallbackForecast_wf (now : ℤ) (score : ℚ) (noise : Nat → ℚ) :
    (fallbackForecast now score noise).wf := by
  constructor
  · simp [fallbackForecast]
  · have h1 : ((fallbackForecast now score noise).rows.map Prod.fst) =
        (List.range 60).map (fun i : ℕ => now + (i : ℤ)) := by
      simp [fallbackForecast, List.map_map, Function.comp]
    rw [h1]
    exact List.Pairwise.map _ (fun a b hab => by omega) (List.pairwise_lt_range 60)

/-- C7: every forecast result seen by the pipeline — the external model's
output under its sequence contract (`ForecastResult.wf`, modelled from the
spec), or the in-repository fallback — has exactly 60 rows with strictly
increasing dates. -/
theorem forecast_horizon_increasing (img : Image) (p : WaterParams) (c : Collaborators)
    (env : Env) (hc : ∀ q r, c.forecast q = .ok r → r.wf) :
    ((run img p c env).forecast.value).rows.length = 60 ∧
    (((run img p c env).forecast.value).rows.map Prod.fst).Pairwise (· < ·) := by
  have hrun : (run img p c env).forecast =
      catchStage (c.forecast ((catchStage (c.score (mkWqiFeatures p))
          (fun _ => wqiFallback)).value.wqi_score))
        (fun _ => fallbackForecast env.now
          ((catchStage (c.score (mkWqiFeatures p)) (fun _ => wqiFallback)).value.wqi_score)
          env.forecastNoise) := rfl
  rw [hrun]
  cases hx : c.forecast ((catchStage (c.score (mkWqiFeatures p))
      (fun _ => wqiFallback)).value.wqi_score) with
  | ok v => simpa [catchStage, StageResult.value] using hc _ v hx
  | error e =>
      simpa [catchStage, StageResult.value] using
        fallbackForecast_wf env.now
          ((catchStage (c.score (mkWqiFeatures p)) (fun _ => wqiFallback)).value.wqi_score)
          env.forecastNoise

/-- Witness for C7: concrete run in which the forecaster throws, so the
contract hypothesis holds vacuously and the fallback path is exercised. -/
theorem forecast_horizon_increasing_witness :
    ((run [0] sampleParams failingCollaborators zeroEnv).forecast.value).rows.length = 60 ∧
    (((run [0] sampleParams failingCollaborators
      zeroEnv).forecast.value).rows.map Prod.fst).Pairwise (· < ·) :=
  forecast_horizon_increasing [0] sampleParams failingCollaborators zeroEnv
    (fun _ _ hr => Except.noConfusion hr)

/-- C8 counterexample: the fallback forecast's deviation from the stage-3
score is not bounded — there is no bound valid across the random draws
(`np.random.randn` has unbounded support): for every candidate bound a
draw exceeds it.  Stated on the concrete pipeline run in which stages 3
and 4 both fail, so the stage-3 score is the fallback score 52.3. -/
theorem forecast_fallback_not_bounded :
    ¬ ∃ B : ℚ, ∀ env : Env,
      ∀ row ∈ (run [0] sampleParams failingCollaborators env).forecast.value.rows,
        |row.2 - wqiFallback.wqi_score| ≤ B := by
  rintro ⟨B, hB⟩
  have hval : (run [0] sampleParams failingCollaborators
        ⟨0, fun _ => 0, fun _ => |B| + 1, fun _ => 0, fun _ => 0⟩).forecast.value =
      fallbackForecast 0 wqiFallback.wqi_score (fun _ => |B| + 1) := rfl
  have hmem : ((0 : ℤ), fallbackForecastValue wqiFallback.wqi_score (fun _ => |B| + 1) 0) ∈
      (fallbackForecast 0 wqiFallback.wqi_score (fun _ => |B| + 1)).rows := by
    simp only [fallbackForecast, List.mem_map, List.mem_range]
    exact ⟨0, by norm_num, by norm_num⟩
  have h := hB ⟨0, fun _ => 0, fun _ => |B| + 1, fun _ => 0, fun _ => 0⟩ _ (hval ▸ hmem)
  have h2 : fallbackForecastValue wqiFallback.wqi_score (fun _ => |B| + 1) 0 -
      wqiFallback.wqi_score = (|B| + 1) * 5 := by
    simp only [fallbackForecastValue]; ring
  rw [h2, abs_of_nonneg (by positivity)] at h
  nlinarith [abs_nonneg B, le_abs_self B]

/-- C8 amended: when the forecaster collaborator fails, each of the 60
synthesized values is the stage-3 score plus 5 times an independent noise
draw — so the deviation from the score is 5 times that draw, bounded by
5·M whenever every draw is bounded by M, but not uniformly bounded. -/
theorem forecast_fallback_noise_scaled (img : Image) (p : WaterParams) (c : Collaborators)
    (env : Env) (M : ℚ) (hfail : ∀ q, ∃ e, c.forecast q = .error e)
    (hM : ∀ i : ℕ, |env.forecastNoise i| ≤ M) :
    ∀ row ∈ (run img p c env).forecast.value.rows,
      ∃ i : ℕ, i < 60 ∧
        row.2 - (run img p c env).index.value.wqi_score = env.forecastNoise i * 5 ∧
        |row.2 - (run img p c env).index.value.wqi_score| ≤ 5 * M := by
  intro row hrow
  obtain ⟨e, he⟩ := hfail ((catchStage (c.score (mkWqiFeatures p))
      (fun _ => wqiFallback)).value.wqi_score)
  have hfc : (run img p c env).forecast.value =
      fallbackForecast env.now ((run img p c env).index.value.wqi_score)
        env.forecastNoise := by
    have hrun : (run img p c env).forecast =
        catchStage (c.forecast ((catchStage (c.score (mkWqiFeatures p))
            (fun _ => wqiFallback)).value.wqi_score))
          (fun _ => fallbackForecast env.now
            ((catchStage (c.score (mkWqiFeatures p))
              (fun _ => wqiFallback)).value.wqi_score)
            env.forecastNoise) := rfl
    rw [hrun, he]
    rfl
  rw [hfc] at hrow
  simp only [fallbackForecast, List.mem_map, List.mem_range] at hrow
  obtain ⟨i, hi, hrow⟩ := hrow
  subst hrow
  refine ⟨i, hi, by simp only [fallbackForecastValue]; ring, ?_⟩
  have h2 : fallbackForecastValue ((run img p c env).index.value.wqi_score)
      env.forecastNoise i - (run img p c env).index.value.wqi_score =
      env.forecastNoise i * 5 := by
    simp only [fallbackForecastValue]; ring
  show |fallbackForecastValue _ _ i - _| ≤ 5 * M
  rw [h2, abs_mul]
  have h3 : |(5 : ℚ)| = 5 := by norm_num
  rw [h3]
  nlinarith [hM i, abs_nonneg (env.forecastNoise i)]

/-- Witness for C8's amended theorem: concrete run with all draws equal to
1 and bound M = 1, applied to the first forecast row (3, 57.3). -/
theorem forecast_fallback_noise_scaled_witness :
    ∃ i : ℕ, i < 60 ∧
      ((573 : ℚ)/10 -
        (run [0] sampleParams failingCollaborators oneEnv).index.value.wqi_score =
        oneEnv.forecastNoise i * 5) ∧
      |(573 : ℚ)/10 -
        (run [0] sampleParams failingCollaborators oneEnv).index.value.wqi_score| ≤ 5 * 1 :=
  forecast_fallback_noise_scaled [0] sampleParams failingCollaborators oneEnv 1
    (fun _ => ⟨"model unavailable", rfl⟩) (fun _ => by norm_num [oneEnv])
    ((3 : ℤ), (573 : ℚ)/10)
    (by
      have hval : (run [0] sampleParams failingCollaborators oneEnv).forecast.value =
          fallbackForecast 3 (523/10) (fun _ => 1) := rfl
      rw [hval]
      simp only [fallbackForecast, List.mem_map, List.mem_range]
      refine ⟨0, by norm_num, ?_⟩
      simp only [fallbackForecastValue, Prod.ext_iff]
      norm_num)

end Pravaah
